import Mathlib

/-!
Verification of the ISPnubMod control state machine (src/main.c).

The main loop of main.c is embedded as a step function over an explicit
state record. External collaborators (clock source, debounce/input, cycle
counter, programming engine) are not part of src/main.c; each of their
calls is modelled as an oracle value supplied per iteration by an Env
record, one field per call site. Hardware-abstraction output calls
(LEDs, buzzer) are modelled by the final value written on each output
line during the signaling section (last write wins), and the
interrupt/sleep primitives of the processing section are modelled as an
emitted event trace, preserving their source order.
-/

namespace ISPnubMod

/-- Operating modes of the control state machine (the S_ constants of
main.h used by main.c). -/
inductive Mode where
  | S_INIT
  | S_WAKEUP
  | S_IDLE
  | S_PROGRAMMING
  | S_NO_MORE
  | S_NO_PROGRAM
  | S_SLEEP
deriving DecidableEq

/-- Build-time configuration of main.c. useYellowLED is false when
COMPATIBILITY_MODE_ISPNUB_ORIGINAL == 1 or DONT_USE_YELLOW_LED == 1;
hasDynamicBOD mirrors HAS_DYNAMIC_BOD_CONTROL == 1. -/
structure Config where
  useYellowLED : Bool
  hasDynamicBOD : Bool
deriving DecidableEq

/-- Default build configuration: neither compatibility macro is defined,
so the yellow LED is used for programming and no dynamic BOD control. -/
def defaultConfig : Config :=
  { useYellowLED := true, hasDynamicBOD := false }

/-- Threshold constants from clock.h consumed by main.c; kept abstract
since clock.h is an external collaborator. -/
structure Consts where
  CLOCK_TICKER_SLOW_250MS : Nat
  CLOCK_TICKER_FAST_10MS : Nat
  CLOCK_TICKER_SLOW_8S : Nat
deriving DecidableEq

/-- The local variables of main that persist across loop iterations
(main.c lines 81-90), plus the global-interrupt-enable bit manipulated
by sei and cli. All uint8_t variables are modelled as Nat. -/
structure LoopState where
  ticker10MS : Nat
  ticker250MS : Nat
  sleeptimer : Nat
  success : Nat
  buzzer : Nat
  toggle250MS : Nat
  state : Mode
  intEnabled : Bool
deriving DecidableEq

/-- Oracle values returned by the external-collaborator calls of one
loop iteration, one field per call site of main.c. -/
structure Env where
  /-- clock_getTickerSlowDiff(ticker250MS) at line 100. -/
  slowTickDiff : Nat
  /-- clock_getTickerSlow() at line 101. -/
  slowNowTick : Nat
  /-- clock_getTickerFastDiff(ticker10MS) at line 107. -/
  fastTickDiff : Nat
  /-- clock_getTickerFast() at line 108. -/
  fastNowTick : Nat
  /-- get_key_press(1 << IO_SWITCH) at line 202. -/
  keyPressSwitch : Bool
  /-- get_key_press(1 << IO_EXT_SWITCH) at line 202. -/
  keyPressExt : Bool
  /-- counter_read() at lines 191 and 205 (at most one runs per iteration). -/
  counterVal : Nat
  /-- script_run() at line 216, a uint8 tri-state result. -/
  scriptResult : Nat
  /-- clock_getTickerSlow() at line 203. -/
  slowNowIdle : Nat
  /-- clock_getTickerSlow() at line 230. -/
  slowNowProg : Nat
  /-- clock_getTickerSlow() at line 258. -/
  slowNowWake : Nat
  /-- clock_getTickerSlowDiff(sleeptimer) at line 269. -/
  sleepDiff : Nat
deriving DecidableEq

/-- Final values written on the four output lines during the signaling
section of one iteration (lines 116-181); last write wins, matching the
hal setter call order. -/
structure Outputs where
  green : Nat
  yellow : Nat
  red : Nat
  buzzerOut : Nat
deriving DecidableEq

/-- Hardware events emitted by the processing section and by the
interrupt handlers, in source order. -/
inductive Event where
  | tickDebounce
  | enableINT0
  | enableINT1
  | sleepEnable
  | sleepBodDisable
  | sei
  | sleepCpu
  | sleepDisable
  | disableINT0
  | disableINT1
  | cli
deriving DecidableEq

/-- The C logical negation on a uint8 value, as used in the expressions
!toggle250MS (lines 103 and 168). -/
def cnot (v : Nat) : Nat :=
  if v = 0 then 1 else 0

/-- Tick bookkeeping of one iteration (lines 99-114): flip the slow
toggle on a slow-tick boundary, and on a fast-tick boundary advance the
debounce state and decrement the buzzer countdown if it is nonzero. -/
def tickPhase (c : Consts) (env : Env) (s : LoopState) : LoopState × List Event :=
  let s1 :=
    if env.slowTickDiff > c.CLOCK_TICKER_SLOW_250MS then
      { s with ticker250MS := env.slowNowTick,
               toggle250MS := cnot s.toggle250MS }
    else s
  if env.fastTickDiff > c.CLOCK_TICKER_FAST_10MS then
    ({ s1 with ticker10MS := env.fastNowTick,
               buzzer := if s1.buzzer > 0 then s1.buzzer - 1 else s1.buzzer },
     [Event.tickDebounce])
  else (s1, [])

/-- Signaling render of one iteration (lines 116-181): the buzzer line
follows the countdown (lines 117-121), then the per-mode switch sets the
three LED lines, with the S_INIT, S_WAKEUP and S_SLEEP cases also
overriding the buzzer line to 0 (lines 129 and 178). -/
def render (cfg : Config) (s : LoopState) : Outputs :=
  let b := if s.buzzer = 0 then 0 else 1
  match s.state with
  | .S_INIT =>
      { green := 1, yellow := 0, red := 0, buzzerOut := 0 }
  | .S_WAKEUP =>
      { green := 1, yellow := 0, red := 0, buzzerOut := 0 }
  | .S_IDLE =>
      if s.success = 1 then
        { green := 1, yellow := 0, red := 0, buzzerOut := b }
      else
        { green := 0, yellow := 0, red := s.toggle250MS, buzzerOut := b }
  | .S_PROGRAMMING =>
      if cfg.useYellowLED then
        { green := 0, yellow := 1, red := 0, buzzerOut := b }
      else
        { green := 0, yellow := 0, red := 1, buzzerOut := b }
  | .S_NO_MORE =>
      { green := s.toggle250MS, yellow := 0, red := s.toggle250MS, buzzerOut := b }
  | .S_NO_PROGRAM =>
      { green := cnot s.toggle250MS, yellow := 0, red := s.toggle250MS, buzzerOut := b }
  | .S_SLEEP =>
      { green := 0, yellow := 0, red := 0, buzzerOut := 0 }

/-- Processing switch of one iteration (lines 185-264): the per-mode
transition logic, including the dead NO_MORE assignment of the
INIT/WAKEUP branch (lines 191-196) exactly as written, and the SLEEP
branch emitting its interrupt/sleep primitives in source order
(lines 240-263). -/
def processPhase (cfg : Config) (env : Env) (s : LoopState) : LoopState × List Event :=
  match s.state with
  | .S_INIT | .S_WAKEUP =>
      let s1 := if env.counterVal = 0 then { s with state := .S_NO_MORE } else s
      ({ s1 with state := .S_IDLE }, [])
  | .S_IDLE =>
      if env.keyPressSwitch || env.keyPressExt then
        let s1 := { s with sleeptimer := env.slowNowIdle }
        if env.counterVal > 0 then
          ({ s1 with state := .S_PROGRAMMING }, [])
        else
          ({ s1 with buzzer := 60, state := .S_NO_MORE }, [])
      else
        (s, [])
  | .S_PROGRAMMING =>
      let s1 := { s with success := env.scriptResult }
      let s2 :=
        if s1.success = 1 then { s1 with buzzer := 3, state := .S_IDLE }
        else if s1.success = 0 then { s1 with buzzer := 30, state := .S_IDLE }
        else { s1 with buzzer := 60, state := .S_NO_PROGRAM }
      ({ s2 with sleeptimer := env.slowNowProg }, [])
  | .S_NO_MORE | .S_NO_PROGRAM =>
      (s, [])
  | .S_SLEEP =>
      ({ s with intEnabled := true,
                sleeptimer := env.slowNowWake,
                state := .S_WAKEUP },
       [Event.enableINT0, Event.enableINT1, Event.sleepEnable]
         ++ (if cfg.hasDynamicBOD then [Event.sleepBodDisable] else [])
         ++ [Event.sei, Event.sleepCpu, Event.sleepDisable])

/-- Sleep-timeout arbitration at the end of one iteration
(lines 267-273): cli, then either force S_SLEEP leaving interrupts
disabled, or sei and keep the mode the processing switch produced. -/
def sleepCheck (c : Consts) (env : Env) (s : LoopState) : LoopState × List Event :=
  if env.sleepDiff > c.CLOCK_TICKER_SLOW_8S then
    ({ s with intEnabled := false, state := .S_SLEEP }, [Event.cli])
  else
    ({ s with intEnabled := true }, [Event.cli, Event.sei])

/-- Result of one full loop iteration. -/
structure StepResult where
  post : LoopState
  out : Outputs
  trace : List Event
deriving DecidableEq

/-- One full iteration of the main loop (lines 96-276): tick
bookkeeping, signaling render of the pre-transition mode, processing
switch, then the sleep-timeout arbitration. -/
def step (cfg : Config) (c : Consts) (env : Env) (s : LoopState) : StepResult :=
  { post := (sleepCheck c env (processPhase cfg env (tickPhase c env s).1).1).1,
    out := render cfg (tickPhase c env s).1,
    trace := (tickPhase c env s).2
               ++ (processPhase cfg env (tickPhase c env s).1).2
               ++ (sleepCheck c env (processPhase cfg env (tickPhase c env s).1).1).2 }

/-- Machine view for the interrupt handlers: the loop-visible state plus
the two external-interrupt arm bits managed through the hal. -/
structure Machine where
  loopSt : LoopState
  int0Armed : Bool
  int1Armed : Bool
deriving DecidableEq

/-- Modelled from the spec: hal.c is not under src. Section 6 of the
spec describes the hal interrupt arm/disarm operations as fire-and-forget
calls; disabling INT0 clears only the INT0 arm bit. -/
def hal_disableINT0 (m : Machine) : Machine :=
  { m with int0Armed := false }

/-- Modelled from the spec: hal.c is not under src. Section 6 of the
spec describes the hal interrupt arm/disarm operations as fire-and-forget
calls; disabling INT1 clears only the INT1 arm bit. -/
def hal_disableINT1 (m : Machine) : Machine :=
  { m with int1Armed := false }

/-- The ISR(INT0_vect) handler (lines 286-288): its body is the single
call hal_disableINT0(). -/
def INT0_vect (m : Machine) : Machine × List Event :=
  (hal_disableINT0 m, [Event.disableINT0])

/-- The ISR(INT1_vect) handler (lines 282-284): its body is the single
call hal_disableINT1(). -/
def INT1_vect (m : Machine) : Machine × List Event :=
  (hal_disableINT1 m, [Event.disableINT1])

/-- The state of the local variables right before the first loop
iteration (lines 81-93): two clock snapshots, success preset to 1,
buzzer and toggle cleared, mode S_INIT, interrupts enabled by sei. -/
def initialState (fast0 slow0 slow1 : Nat) : LoopState :=
  { ticker10MS := fast0, ticker250MS := slow0, sleeptimer := slow1,
    success := 1, buzzer := 0, toggle250MS := 0,
    state := .S_INIT, intEnabled := true }

/-- The processing switch never produces S_SLEEP: every branch leaves
the mode or assigns one of S_IDLE, S_PROGRAMMING, S_NO_MORE,
S_NO_PROGRAM or S_WAKEUP. -/
theorem processPhase_state_ne_sleep (cfg : Config) (env : Env) (s : LoopState) :
    (processPhase cfg env s).1.state ≠ Mode.S_SLEEP := by
  rcases s with ⟨t10, t250, slt, suc, bz, tog, st, ie⟩
  cases st <;> simp [processPhase] <;> split_ifs <;> simp

/-- C1: on every iteration, after the processing switch, the
sleep-timeout check runs regardless of mode: if the slow-tick delta
since the inactivity reference exceeds the 8-second threshold the mode
is forced to S_SLEEP with interrupts left disabled, otherwise the mode
is the one the processing switch produced and interrupts are re-enabled;
hence the post-iteration mode is S_SLEEP exactly when the threshold is
exceeded. -/
theorem C1_sleep_timeout_arbitration (cfg : Config) (c : Consts) (env : Env)
    (s : LoopState) :
    ((step cfg c env s).post.state = Mode.S_SLEEP ↔
        env.sleepDiff > c.CLOCK_TICKER_SLOW_8S)
    ∧ (step cfg c env s).post.state =
        (if env.sleepDiff > c.CLOCK_TICKER_SLOW_8S then Mode.S_SLEEP
         else (processPhase cfg env (tickPhase c env s).1).1.state)
    ∧ (step cfg c env s).post.intEnabled =
        (if env.sleepDiff > c.CLOCK_TICKER_SLOW_8S then false else true) := by
  have hns := processPhase_state_ne_sleep cfg env (tickPhase c env s).1
  simp only [step, sleepCheck]
  split_ifs with h <;> simp_all

/-- C2: the S_SLEEP processing branch arms INT0 then INT1, enables the
sleep primitive, issues sei immediately before the blocking sleep
instruction, and after resuming disables the sleep primitive, resets the
inactivity reference to the current slow tick, and sets the mode to
S_WAKEUP; no other loop variable changes. -/
theorem C2_sleep_branch_sequence (cfg : Config) (env : Env) (s : LoopState) :
    processPhase cfg env { s with state := Mode.S_SLEEP } =
      ({ s with state := Mode.S_WAKEUP,
                sleeptimer := env.slowNowWake,
                intEnabled := true },
       [Event.enableINT0, Event.enableINT1, Event.sleepEnable]
         ++ (if cfg.hasDynamicBOD then [Event.sleepBodDisable] else [])
         ++ [Event.sei, Event.sleepCpu, Event.sleepDisable]) := by
  simp [processPhase]

/-- C3: from starting mode S_INIT or S_WAKEUP the processing switch
yields S_IDLE for every oracle environment, in particular for every
value of the remaining-cycle counter: the NO_MORE assignment of the
exhaustion check is always overwritten. -/
theorem C3_init_wakeup_always_idle (cfg : Config) (env : Env) (s : LoopState) :
    (processPhase cfg env { s with state := Mode.S_INIT }).1.state = Mode.S_IDLE
    ∧ (processPhase cfg env { s with state := Mode.S_WAKEUP }).1.state =
        Mode.S_IDLE := by
  constructor <;> simp [processPhase]

/-- C4: from starting mode S_PROGRAMMING, the engine result is stored in
success and mapped as: 1 gives buzzer 3 and S_IDLE, 0 gives buzzer 30
and S_IDLE, any other value gives buzzer 60 and S_NO_PROGRAM; in all
cases the inactivity reference is reset afterward. -/
theorem C4_programming_outcome_mapping (cfg : Config) (env : Env) (s : LoopState) :
    (processPhase cfg env { s with state := Mode.S_PROGRAMMING }).1.success =
        env.scriptResult
    ∧ (processPhase cfg env { s with state := Mode.S_PROGRAMMING }).1.buzzer =
        (if env.scriptResult = 1 then 3
         else if env.scriptResult = 0 then 30 else 60)
    ∧ (processPhase cfg env { s with state := Mode.S_PROGRAMMING }).1.state =
        (if env.scriptResult = 1 then Mode.S_IDLE
         else if env.scriptResult = 0 then Mode.S_IDLE else Mode.S_NO_PROGRAM)
    ∧ (processPhase cfg env { s with state := Mode.S_PROGRAMMING }).1.sleeptimer =
        env.slowNowProg := by
  refine ⟨?_, ?_, ?_, ?_⟩ <;> simp [processPhase] <;> split_ifs <;> simp

/-- C5: from starting mode S_IDLE, a consumed press edge on either
switch resets the inactivity reference and then moves to S_PROGRAMMING
when the remaining-cycle counter is nonzero, or sets the buzzer
countdown to 60 and moves to S_NO_MORE when it is zero; with no press
edge the branch changes nothing. -/
theorem C5_idle_press_handling (cfg : Config) (env : Env) (s : LoopState) :
    processPhase cfg env { s with state := Mode.S_IDLE } =
      (if env.keyPressSwitch || env.keyPressExt then
         (if env.counterVal > 0 then
            ({ s with sleeptimer := env.slowNowIdle,
                      state := Mode.S_PROGRAMMING }, ([] : List Event))
          else
            ({ s with sleeptimer := env.slowNowIdle, buzzer := 60,
                      state := Mode.S_NO_MORE }, ([] : List Event)))
       else ({ s with state := Mode.S_IDLE }, ([] : List Event))) := by
  simp only [processPhase]

/-- Concrete state with mode S_INIT and a nonzero buzzer countdown,
exhibiting the buzzer override of the S_INIT signaling case. -/
def buzzerInitState : LoopState :=
  { ticker10MS := 0, ticker250MS := 0, sleeptimer := 0, success := 1,
    buzzer := 5, toggle250MS := 0, state := .S_INIT, intEnabled := true }

/-- C6 counterexample: in mode S_INIT with buzzer countdown 5 the
rendered buzzer output is 0, although the countdown is nonzero and the
mode is not S_SLEEP; so S_SLEEP is not the single mode that forces the
buzzer off. -/
theorem C6_counterexample :
    buzzerInitState.buzzer ≠ 0
    ∧ buzzerInitState.state ≠ Mode.S_SLEEP
    ∧ (render defaultConfig buzzerInitState).buzzerOut = 0 := by
  refine ⟨by decide, by decide, rfl⟩

/-- C6 amended: the buzzer output follows the countdown (on exactly when
it is nonzero) independently of the mode, except that it is forced off
in the S_INIT, S_WAKEUP and S_SLEEP modes. -/
theorem C6_buzzer_output_amended (cfg : Config) (s : LoopState) :
    (render cfg s).buzzerOut =
      (if s.state = Mode.S_INIT ∨ s.state = Mode.S_WAKEUP ∨ s.state = Mode.S_SLEEP
       then 0
       else if s.buzzer = 0 then 0 else 1) := by
  rcases s with ⟨t10, t250, slt, suc, bz, tog, st, ie⟩
  cases st <;> simp [render] <;> split_ifs <;> rfl

/-- Threshold constants instantiated at concrete values for the
counterexample runs. -/
def sleepConsts : Consts :=
  { CLOCK_TICKER_SLOW_250MS := 1, CLOCK_TICKER_FAST_10MS := 1,
    CLOCK_TICKER_SLOW_8S := 32 }

/-- Oracle environment of an iteration with no tick boundary, no press
edge and a fresh inactivity reference. -/
def quietEnv : Env :=
  { slowTickDiff := 0, slowNowTick := 0, fastTickDiff := 0, fastNowTick := 0,
    keyPressSwitch := false, keyPressExt := false, counterVal := 1,
    scriptResult := 0, slowNowIdle := 0, slowNowProg := 0, slowNowWake := 0,
    sleepDiff := 0 }

/-- Concrete state asleep after a failed programming attempt: success
holds 0 from the last script_run and the mode is S_SLEEP. -/
def failedSleepState : LoopState :=
  { ticker10MS := 0, ticker250MS := 0, sleeptimer := 0, success := 0,
    buzzer := 0, toggle250MS := 1, state := .S_SLEEP, intEnabled := false }

/-- C7 counterexample: starting asleep with the last outcome a failure,
one iteration wakes to S_WAKEUP and the next reaches S_IDLE with success
still 0, and the IDLE render is red (green off): the last outcome
survives the sleep/wake cycle and still determines the IDLE LED color. -/
theorem C7_counterexample :
    (step defaultConfig sleepConsts quietEnv failedSleepState).post.state =
        Mode.S_WAKEUP
    ∧ (step defaultConfig sleepConsts quietEnv
        (step defaultConfig sleepConsts quietEnv failedSleepState).post).post.state =
        Mode.S_IDLE
    ∧ (step defaultConfig sleepConsts quietEnv
        (step defaultConfig sleepConsts quietEnv failedSleepState).post).post.success =
        0
    ∧ (render defaultConfig
        (step defaultConfig sleepConsts quietEnv
          (step defaultConfig sleepConsts quietEnv failedSleepState).post).post).green =
        0
    ∧ (render defaultConfig
        (step defaultConfig sleepConsts quietEnv
          (step defaultConfig sleepConsts quietEnv failedSleepState).post).post).red =
        1 := by
  decide

/-- C7 amended: the last outcome drives the IDLE-mode steady LED
rendering (green solid when success or not yet set, otherwise red at
the slow-toggle cadence with green off), and it is persisted across
sleep: the S_SLEEP processing branch leaves success unchanged, so after
a sleep/wake cycle it still determines the IDLE LED color. -/
theorem C7_last_outcome_amended (cfg : Config) (env : Env) (s : LoopState) :
    (processPhase cfg env { s with state := Mode.S_SLEEP }).1.success = s.success
    ∧ render cfg { s with state := Mode.S_IDLE } =
        (if s.success = 1 then
           { green := 1, yellow := 0, red := 0,
             buzzerOut := if s.buzzer = 0 then 0 else 1 }
         else
           { green := 0, yellow := 0, red := s.toggle250MS,
             buzzerOut := if s.buzzer = 0 then 0 else 1 }) := by
  constructor <;> simp [processPhase, render]

/-- C8: the buzzer countdown is non-negative, never increased by the
tick bookkeeping, decreased by at most 1 per fast-tick boundary
(decremented only when nonzero, flooring at zero), and assigning a mode
constant yields exactly that constant regardless of the prior value
(shown for the three programming outcomes and the exhausted-counter
press in S_IDLE). -/
theorem C8_buzzer_countdown_invariants (cfg : Config) (c : Consts) (env : Env)
    (s : LoopState) :
    0 ≤ (tickPhase c env s).1.buzzer
    ∧ (tickPhase c env s).1.buzzer ≤ s.buzzer
    ∧ s.buzzer - (tickPhase c env s).1.buzzer ≤ 1
    ∧ (tickPhase c env s).1.buzzer =
        (if env.fastTickDiff > c.CLOCK_TICKER_FAST_10MS then
           (if s.buzzer > 0 then s.buzzer - 1 else s.buzzer)
         else s.buzzer)
    ∧ (processPhase cfg env { s with state := Mode.S_PROGRAMMING }).1.buzzer =
        (if env.scriptResult = 1 then 3
         else if env.scriptResult = 0 then 30 else 60)
    ∧ (processPhase cfg { env with keyPressSwitch := true, counterVal := 0 }
        { s with state := Mode.S_IDLE }).1.buzzer = 60 := by
  refine ⟨Nat.zero_le _, ?_, ?_, ?_, ?_, ?_⟩ <;>
    simp [tickPhase, processPhase] <;> split_ifs <;> simp <;> omega

/-- C9: each wake interrupt handler only disables its own interrupt
source: INT1_vect clears the INT1 arm bit and INT0_vect clears the INT0
arm bit, each emitting exactly that one hal call, and neither touches
the loop-visible state or the other arm bit. -/
theorem C9_isr_frame (m : Machine) :
    (INT1_vect m).1.loopSt = m.loopSt
    ∧ (INT1_vect m).1.int0Armed = m.int0Armed
    ∧ (INT1_vect m).1.int1Armed = false
    ∧ (INT1_vect m).2 = [Event.disableINT1]
    ∧ (INT0_vect m).1.loopSt = m.loopSt
    ∧ (INT0_vect m).1.int1Armed = m.int1Armed
    ∧ (INT0_vect m).1.int0Armed = false
    ∧ (INT0_vect m).2 = [Event.disableINT0] := by
  exact ⟨rfl, rfl, rfl, rfl, rfl, rfl, rfl, rfl⟩

/-- C10: in the default build configuration the yellow LED line is
rendered 1 exactly when the pre-transition mode is S_PROGRAMMING, and 0
in every other mode. -/
theorem C10_yellow_only_in_programming (s : LoopState) :
    (render defaultConfig s).yellow =
      (if s.state = Mode.S_PROGRAMMING then 1 else 0) := by
  rcases s with ⟨t10, t250, slt, suc, bz, tog, st, ie⟩
  cases st <;> simp [render, defaultConfig] <;> split_ifs <;> simp

end ISPnubMod

